import Mathlib

/-!
Shallow embedding of the message-forwarding core of `forward.py`:
the content filter (`apply_filters_to_text`), the hot message handler's
routing and enqueue step (`_hot_message_handler`), the bounded send queue
(`asyncio.Queue`) with its blocking `put` semantics, the send worker's
rate-limit handling (`send_worker_loop`), the destination resolver
(`resolve_target_entity_once`) and the per-account handler registration
(`ensure_handler_registered_for_user` and the logout deregistration path).

Python dictionary lookups (`settings.get(k)`) are modelled with `Option`
fields: `none` stands for both "key absent" and "value None" (the two are
indistinguishable through `dict.get`).  Python truthiness of an optional
boolean is `truthy`.  `str.isalpha`/`str.isdigit` are modelled by the ASCII
`Char.isAlpha`/`Char.isDigit`; all claims are about ASCII inputs.
-/

namespace Forwarderify

/-- Python truthiness of `settings.get(k)` for a boolean-valued key:
`None` (absent key) and `False` are falsy, `True` is truthy. -/
def truthy (o : Option Bool) : Bool :=
  o.getD false

/-- The per-task settings dictionary (keys as in `TASK_SETTINGS_DEFAULT`,
src lines 104–116).  Flags are `Option Bool` (absent = `none`); the prefix
and suffix decorations are `Option String`. -/
structure Settings where
  filter_raw : Option Bool := none
  filter_numbers : Option Bool := none
  filter_alpha : Option Bool := none
  filter_remove_alpha : Option Bool := none
  filter_remove_numeric : Option Bool := none
  filter_prefix : Option String := none
  filter_suffix : Option String := none
  outgoing : Option Bool := none
  forward_tag : Option Bool := none
  control : Option Bool := none
deriving Repr, DecidableEq

/-- Model of `TASK_SETTINGS_DEFAULT` (src lines 104–116). -/
def TASK_SETTINGS_DEFAULT : Settings :=
  { filter_raw := some false, filter_numbers := some false,
    filter_alpha := some false, filter_remove_alpha := some false,
    filter_remove_numeric := some false, filter_prefix := none,
    filter_suffix := none, outgoing := some true, forward_tag := some true,
    control := some true }

/-- Decoration applied in every output-producing branch of
`apply_filters_to_text`: `f"{prefix}{out}{suffix}"` with
`settings.get("filter_prefix") or ""` and likewise for the suffix
(`none` and the empty string both decorate with `""`). -/
def decor (s : Settings) (t : String) : String :=
  let p := Option.getD ( Settings.filter_prefix s) ""
  let sfx := Option.getD s.filter_suffix ""
  String.mk (p.data ++ t.data ++ sfx.data)

/-- Splitter behind Python `text.split()`: cut a character list at
whitespace runs, discarding empty pieces (`acc` holds the current word
reversed). -/
def splitWsAux : List Char → List Char → List (List Char)
  | [], acc => if acc.isEmpty then [] else [acc.reverse]
  | c :: cs, acc =>
    if c.isWhitespace then
      if acc.isEmpty then splitWsAux cs [] else acc.reverse :: splitWsAux cs []
    else splitWsAux cs (c :: acc)

/-- Python `text.split()`: split on whitespace runs, discarding empty pieces. -/
def pyWords (t : String) : List String :=
  (splitWsAux t.data []).map String.mk

/-- Python `any(ch ... for ch in s)` over the characters of a string. -/
def pyAnyChar (s : String) (p : Char → Bool) : Bool :=
  s.data.any p

/-- Python `s.strip()`: remove leading and trailing whitespace. -/
def pyStrip (s : String) : String :=
  String.mk (((s.data.dropWhile Char.isWhitespace).reverse.dropWhile
    Char.isWhitespace).reverse)

/-- Python `s.isdigit()` (ASCII): nonempty and every character a digit. -/
def pyIsdigit (s : String) : Bool :=
  !s.data.isEmpty && s.data.all Char.isDigit

/-- Local `has_alpha` of `apply_filters_to_text` (src line 1058): some
whitespace-delimited word contains a letter.  (The Python guard
`if words else False` is the same as `any` over an empty list.) -/
def hasAlphaWord (t : String) : Bool :=
  (pyWords t).any (fun w => pyAnyChar w Char.isAlpha)

/-- Local `has_digit` of `apply_filters_to_text` (src line 1059). -/
def hasDigitWord (t : String) : Bool :=
  (pyWords t).any (fun w => pyAnyChar w Char.isDigit)

/-- Flag check `active_filters` computed in the legacy branch of
`apply_filters_to_text` (src lines 1106–1108). -/
def active_filters (s : Settings) : Bool :=
  truthy s.filter_raw || truthy s.filter_numbers || truthy s.filter_alpha ||
    truthy s.filter_remove_alpha || truthy s.filter_remove_numeric

/-- The Content Filter `apply_filters_to_text` (src lines 1049–1117). -/
def apply_filters_to_text (message_text : String) (settings : Settings) : List String :=
  let text := message_text
  let words := pyWords text
  let has_alpha := hasAlphaWord text
  let has_digit := hasDigitWord text
  if truthy settings.filter_raw then
    [decor settings text]
  else if truthy settings.filter_numbers then
    if pyAnyChar text Char.isDigit then [decor settings text] else []
  else if truthy settings.filter_alpha then
    if pyAnyChar text Char.isAlpha then [decor settings text] else []
  else if truthy settings.filter_remove_alpha then
    if has_alpha && has_digit then
      (words.filter (fun w =>
        pyAnyChar w Char.isAlpha && !pyAnyChar w Char.isDigit)).map
        (decor settings)
    else []
  else if truthy settings.filter_remove_numeric then
    if has_alpha && has_digit then
      (words.filter (fun w =>
        pyAnyChar w Char.isDigit && !pyAnyChar w Char.isAlpha)).map
        (decor settings)
    else []
  else
    if !active_filters settings then
      if pyIsdigit (pyStrip text) then [decor settings (pyStrip text)] else []
    else []

/-- A forwarding job as put on `send_queue`: the tuple
`(user_id, client, int(target_id), out_text)`.  The client handle is
opaque; we model it by a numeric identity. -/
structure Job where
  user_id : Int
  client : Nat
  target_id : Int
  text : String
deriving Repr, DecidableEq

/-- One task dict as stored in `tasks_cache`: the keys read by the hot
message handler. -/
structure Task where
  source_ids : List Int
  target_ids : List Int
  settings : Settings
deriving Repr, DecidableEq

/-- A Telethon `NewMessage` event, restricted to the attributes the hot
message handler reads: `raw_text`, `message.message`, `chat_id`,
`message.chat_id` and `out`. -/
structure Event where
  raw_text : Option String := none
  message_message : Option String := none
  chat_id : Option Int := none
  message_chat_id : Option Int := none
  out : Bool := false
deriving Repr, DecidableEq

/-- Text extraction of the handler (src lines 997–999):
`getattr(event, "raw_text", None) or getattr(event.message, "message", None)`
followed by `if not message_text: return` (both `None` and `""` discard). -/
def extract_text (e : Event) : Option String :=
  let t : Option String :=
    match e.raw_text with
    | some s => if s.data.isEmpty then e.message_message else some s
    | none => e.message_message
  match t with
  | some s => if s.data.isEmpty then none else some s
  | none => none

/-- Chat-id extraction of the handler (src lines 1002–1004):
`getattr(event, "chat_id", None) or getattr(event.message, "chat_id", None)`
followed by `if chat_id is None: return` (`0` is falsy so it falls through
to the message's chat id, but a final `0` is not discarded). -/
def extract_chat_id (e : Event) : Option Int :=
  match e.chat_id with
  | some c => if c = 0 then e.message_chat_id else some c
  | none => e.message_chat_id

/-- Per-task body of the hot message handler (src lines 1011–1035): the
jobs this task asks to enqueue for one event.  The task is skipped when the
originating chat is not among its sources, when `settings.get("control")
is False`, or when the event is outgoing and `settings.get("outgoing",
True)` is falsy; otherwise one job per (target id, filter output) pair, in
target-major order. -/
def handler_task_jobs (user_id : Int) (client : Nat) (event_out : Bool)
    (chat_id : Int) (message_text : String) (task : Task) : List Job :=
  if task.source_ids.contains chat_id then
    let settings := task.settings
    if settings.control = some false then []
    else if !(settings.outgoing.getD true) && event_out then []
    else
      let outputs := apply_filters_to_text message_text settings
      task.target_ids.flatMap (fun target_id =>
        outputs.map (fun out_text => ⟨user_id, client, target_id, out_text⟩))
  else []

/-- All enqueue attempts one invocation of `_hot_message_handler` makes for
an event (src lines 991–1037): nothing when the text or the chat id is
missing or the account has no cached tasks, else the per-task jobs in task
order. -/
def handler_jobs (user_id : Int) (client : Nat) (e : Event)
    (user_tasks : List Task) : List Job :=
  match extract_text e, extract_chat_id e with
  | some message_text, some chat_id =>
    if user_tasks.isEmpty then []
    else user_tasks.flatMap
      (handler_task_jobs user_id client e.out chat_id message_text)
  | _, _ => []

/-- Default of `SEND_QUEUE_MAXSIZE` (src line 60). -/
def SEND_QUEUE_MAXSIZE : Nat := 10000

/-- The bounded `asyncio.Queue` of jobs (`send_queue`). -/
structure SendQueue where
  maxsize : Nat
  items : List Job
deriving Repr, DecidableEq

/-- Fullness test of `asyncio.Queue`: with `maxsize <= 0` never full. -/
def SendQueue.isFull (q : SendQueue) : Bool :=
  decide (0 < q.maxsize) && decide (q.maxsize ≤ q.items.length)

/-- Outcome of the coroutine `asyncio.Queue.put`. -/
inductive PutOutcome where
  /-- A slot was free: the item was appended. -/
  | enqueued (q : SendQueue)
  /-- The queue was full: the coroutine suspends the caller until a
  consumer frees a slot.  `put` never raises `QueueFull`. -/
  | suspended
deriving Repr, DecidableEq

/-- Semantics of `await queue.put(item)`: append when a slot is free, else suspend the
caller.  (`put_nowait` would raise `QueueFull` instead of suspending; the
source uses the blocking coroutine form.) -/
def SendQueue.put (q : SendQueue) (j : Job) : PutOutcome :=
  if q.isFull then .suspended else .enqueued ⟨q.maxsize, q.items ++ [j]⟩

/-- Result of one enqueue attempt of the hot message handler. -/
inductive EnqueueResult where
  /-- The job went onto the queue. -/
  | enqueued (q : SendQueue)
  /-- Case `send_queue is None`: the job is dropped (debug log) and the loop
  continues. -/
  | droppedNoQueue
  /-- The `except asyncio.QueueFull` branch (src lines 1036–1037): drop
  with a warning log. -/
  | droppedFull (q : SendQueue)
  /-- The producer is suspended inside `await send_queue.put(...)`. -/
  | blocked
deriving Repr, DecidableEq

/-- One enqueue attempt of `_hot_message_handler` (src lines 1030–1037):
`await send_queue.put(job)` guarded by `except asyncio.QueueFull`.  The
blocking coroutine `put` never raises `QueueFull`, so the except branch is
unreachable: a full queue suspends the producer instead of dropping. -/
def hot_enqueue (send_queue : Option SendQueue) (j : Job) : EnqueueResult :=
  match send_queue with
  | none => .droppedNoQueue
  | some q =>
    match q.put j with
    | .enqueued q1 => .enqueued q1
    | .suspended => .blocked

/-- Result of the provider send call in `send_worker_loop`. -/
inductive SendResult where
  | success
  /-- Exception `FloodWaitError` carrying `seconds`. -/
  | floodWait (seconds : Nat)
  | otherFailure
deriving Repr, DecidableEq

/-- What one worker iteration does after the send attempt. -/
inductive WorkerStep where
  /-- Success, or a non-rate-limit failure (logged and dropped): no sleep,
  queue unchanged, next dequeue. -/
  | done (q : SendQueue)
  /-- Rate limited: slept `sleep` seconds, then re-enqueued the job. -/
  | requeued (sleep : Nat) (q : SendQueue)
  /-- Rate limited: slept `sleep` seconds, then suspended inside
  `await send_queue.put(...)` because the queue was full. -/
  | blockedRequeue (sleep : Nat)
deriving Repr, DecidableEq

/-- Send-result handling of `send_worker_loop` (src lines 1180–1192): on
`FloodWaitError` with `wait` seconds, `await asyncio.sleep(wait + 1)` then
`await send_queue.put(...)` of the very same tuple, guarded by an
`except asyncio.QueueFull` that the blocking `put` never triggers; any
other failure is logged and the job dropped. -/
def worker_handle_send (q : SendQueue) (j : Job) (r : SendResult) : WorkerStep :=
  match r with
  | .success => .done q
  | .otherFailure => .done q
  | .floodWait wait =>
    match q.put j with
    | .enqueued q1 => .requeued (wait + 1) q1
    | .suspended => .blockedRequeue (wait + 1)

/-- Outcome of `resolve_target_entity_once` (src lines 1120–1134) on one
account's sub-dictionary of `target_entity_cache`: the returned entity (or
`none`), the cache afterwards, and how many provider resolution calls
(`client.get_input_entity`) were made. -/
structure ResolveOut where
  result : Option Nat
  cache : List (Int × Nat)
  provider_calls : Nat
deriving Repr, DecidableEq

/-- The resolver `resolve_target_entity_once` (src lines 1120–1134), restricted to the
account's own `target_entity_cache[user_id]` dictionary (the function
first creates that sub-dictionary when absent; entities are opaque,
modelled by `Nat`; the provider call `client.get_input_entity` either
returns an entity or raises, modelled by `Option`).  Cache hit: return the
cached entity, no provider call.  Miss: one provider call; on success
cache and return, on failure return `none` without caching. -/
def resolve_target_entity_once (cache : List (Int × Nat))
    (provider : Int → Option Nat) (target_id : Int) : ResolveOut :=
  match List.lookup target_id cache with
  | some entity => ⟨some entity, cache, 0⟩
  | none =>
    match provider target_id with
    | some entity => ⟨some entity, (target_id, entity) :: cache, 1⟩
    | none => ⟨none, cache, 1⟩

/-- The Telethon client, restricted to its list of attached event
handlers (handlers are opaque, modelled by `Nat`). -/
structure Client where
  handlers : List Nat
deriving Repr, DecidableEq

/-- One account's registration state: the client and the
`handler_registered` entry for this account (`none` = key absent). -/
structure RegState where
  client : Client
  registered : Option Nat
deriving Repr, DecidableEq

/-- Registration `ensure_handler_registered_for_user` (src lines 986–1046) for one
account: `if handler_registered.get(user_id): return`, otherwise
`client.add_event_handler(handler)` and record the handler. -/
def ensure_handler_registered_for_user (st : RegState) (handler : Nat) : RegState :=
  match st.registered with
  | some _ => st
  | none => ⟨⟨st.client.handlers ++ [handler]⟩, some handler⟩

/-- The logout deregistration path (src lines 447–453):
`handler = handler_registered.get(user_id); if handler:` remove it from
the client and pop the entry; with no registered handler nothing at all
happens. -/
def deregister_handler_for_user (st : RegState) : RegState :=
  match st.registered with
  | some handler => ⟨⟨st.client.handlers.erase handler⟩, none⟩
  | none => st

/-- An inbound event invokes every handler attached to the client once;
`n` events, each invocation attempting `jobs_per` enqueues. -/
def total_enqueue_attempts (st : RegState) (n jobs_per : Nat) : Nat :=
  n * (st.client.handlers.length * jobs_per)

/-- A fresh account: no attached handlers, no `handler_registered` entry. -/
def freshRegState : RegState := ⟨⟨[]⟩, none⟩

/-- Number of the five filter flags stored truthy. -/
def numTrueFilterFlags (s : Settings) : Nat :=
  (if truthy s.filter_raw then 1 else 0) +
    (if truthy s.filter_numbers then 1 else 0) +
    (if truthy s.filter_alpha then 1 else 0) +
    (if truthy s.filter_remove_alpha then 1 else 0) +
    (if truthy s.filter_remove_numeric then 1 else 0)

/-- The settings record of the single highest-priority truthy filter
flag (priority: raw, numbers, alpha, remove_alpha, remove_numeric): each
flag is stored true exactly when it is the first truthy one; decorations
and the remaining fields are kept. -/
def soloTopFlag (s : Settings) : Settings :=
  let r := truthy s.filter_raw
  let n := !r && truthy s.filter_numbers
  let a := !r && !truthy s.filter_numbers && truthy s.filter_alpha
  let ra := !r && !truthy s.filter_numbers && !truthy s.filter_alpha &&
    truthy s.filter_remove_alpha
  let rn := !r && !truthy s.filter_numbers && !truthy s.filter_alpha &&
    !truthy s.filter_remove_alpha && truthy s.filter_remove_numeric
  { s with
      filter_raw := some r
      filter_numbers := some n
      filter_alpha := some a
      filter_remove_alpha := some ra
      filter_remove_numeric := some rn }

/-- Whether the text is "mixed" in the sense of the strip branches:
`has_alpha and has_digit` at word granularity. -/
def textMixed (t : String) : Bool :=
  hasAlphaWord t && hasDigitWord t

end Forwarderify

namespace Forwarderify

/-- Whether an enqueue attempt ended in the handler's `except
asyncio.QueueFull` drop branch. -/
def isDroppedFull : EnqueueResult → Bool
  | .droppedFull _ => true
  | _ => false

/-- C1: the claim says an enqueue attempt against a full Delivery Queue
never blocks the producer and drops the job with a warning.  On the code,
`await send_queue.put(...)` suspends the producer when the queue is full
(here: capacity 1 already holding a job), and the `except
asyncio.QueueFull` drop branch is unreachable for every input. -/
theorem C1_full_queue_enqueue_blocks :
    hot_enqueue (some ⟨1, [⟨1, 0, 200, "111"⟩]⟩) ⟨1, 0, 300, "999"⟩
      = EnqueueResult.blocked
    ∧ ∀ (send_queue : Option SendQueue) (j : Job),
        isDroppedFull (hot_enqueue send_queue j) = false := by
  constructor
  · rfl
  · intro sq j
    cases sq with
    | none => rfl
    | some q =>
      simp only [hot_enqueue, SendQueue.put]
      by_cases hf : q.isFull = true
      · simp [hf, isDroppedFull]
      · simp at hf
        simp [hf, isDroppedFull]

/-- C2: on a rate-limit signal carrying `wait` seconds the worker sleeps
`wait + 1` and re-enqueues the very same job exactly once (shown on a
queue with room).  But the requeue is the blocking `await send_queue.put`,
not the non-blocking put-or-drop the claim states: on a full queue
(capacity 1 holding a job) the worker suspends instead of dropping. -/
theorem C2_floodwait_requeue :
    worker_handle_send ⟨2, [⟨1, 0, 200, "111"⟩]⟩ ⟨1, 0, 300, "999"⟩
        (SendResult.floodWait 5)
      = WorkerStep.requeued 6 ⟨2, [⟨1, 0, 200, "111"⟩, ⟨1, 0, 300, "999"⟩]⟩
    ∧ worker_handle_send ⟨1, [⟨1, 0, 200, "111"⟩]⟩ ⟨1, 0, 300, "999"⟩
        (SendResult.floodWait 5)
      = WorkerStep.blockedRequeue 6 := by
  exact ⟨rfl, rfl⟩

/-- C6: registering a listener when one is registered is a silent no-op;
double registration from a fresh account leaves exactly one attached
handler, so `n` events make `n * jobs_per` enqueue attempts, not twice
that; deregistering with no registered handler changes nothing. -/
theorem C6_single_listener_per_account (st : RegState) (h h2 n jobs_per : Nat)
    (hreg : st.registered.isSome = true) :
    ensure_handler_registered_for_user st h = st
    ∧ ensure_handler_registered_for_user
        (ensure_handler_registered_for_user freshRegState h) h2
      = ensure_handler_registered_for_user freshRegState h
    ∧ (ensure_handler_registered_for_user
        (ensure_handler_registered_for_user freshRegState h) h2).client.handlers.length
      = 1
    ∧ total_enqueue_attempts
        (ensure_handler_registered_for_user
          (ensure_handler_registered_for_user freshRegState h) h2) n jobs_per
      = n * jobs_per
    ∧ deregister_handler_for_user ⟨st.client, none⟩ = ⟨st.client, none⟩ := by
  refine ⟨?_, rfl, rfl, ?_, rfl⟩
  · cases hcase : st.registered with
    | none => rw [hcase] at hreg; simp at hreg
    | some v => simp [ensure_handler_registered_for_user, hcase]
  · simp [total_enqueue_attempts, ensure_handler_registered_for_user,
      freshRegState]

/-- Witness for C6 at a concrete registered state and fresh double
registration. -/
theorem C6_witness :
    ensure_handler_registered_for_user ⟨⟨[3]⟩, some 3⟩ 4 = ⟨⟨[3]⟩, some 3⟩
    ∧ (ensure_handler_registered_for_user
        (ensure_handler_registered_for_user freshRegState 4) 5).client.handlers.length
      = 1 :=
  ⟨(C6_single_listener_per_account ⟨⟨[3]⟩, some 3⟩ 4 5 2 7 rfl).1,
    (C6_single_listener_per_account ⟨⟨[3]⟩, some 3⟩ 4 5 2 7 rfl).2.2.1⟩

/-- C7: after a resolution that returned an entity, resolving the same
target again returns that same cached entity with zero provider calls and
an unchanged cache, whatever the provider would now answer; a failed
resolution leaves the cache unchanged, so any later call makes a provider
call again. -/
theorem C7_resolver_cache_idempotent (cache : List (Int × Nat))
    (provider provider2 : Int → Option Nat) (target_id : Int) (e : Nat) :
    ((resolve_target_entity_once cache provider target_id).result = some e →
      resolve_target_entity_once
          (resolve_target_entity_once cache provider target_id).cache provider2
          target_id
        = ⟨some e, (resolve_target_entity_once cache provider target_id).cache, 0⟩)
    ∧ ((resolve_target_entity_once cache provider target_id).result = none →
      (resolve_target_entity_once cache provider target_id).cache = cache
      ∧ (resolve_target_entity_once cache provider2 target_id).provider_calls
        = 1) := by
  cases hl : List.lookup target_id cache with
  | some v =>
    refine ⟨?_, ?_⟩
    · intro hres
      simp [resolve_target_entity_once, hl] at hres ⊢
      exact hres
    · intro hres
      simp [resolve_target_entity_once, hl] at hres
  | none =>
    cases hp : provider target_id with
    | some v =>
      refine ⟨?_, ?_⟩
      · intro hres
        simp [resolve_target_entity_once, hl, hp] at hres ⊢
        exact hres
      · intro hres
        simp [resolve_target_entity_once, hl, hp] at hres
    | none =>
      refine ⟨?_, ?_⟩
      · intro hres
        simp [resolve_target_entity_once, hl, hp] at hres
      · intro _
        cases hp2 : provider2 target_id with
        | some w => simp [resolve_target_entity_once, hl, hp, hp2]
        | none => simp [resolve_target_entity_once, hl, hp, hp2]

/-- Witness for C7: first call resolves target 5 to entity 7 and caches
it; the second call returns the cached 7 with zero provider calls even
though the provider now fails. -/
theorem C7_witness :
    resolve_target_entity_once
        (resolve_target_entity_once [] (fun _ => some 7) 5).cache
        (fun _ => none) 5
      = ⟨some 7, (resolve_target_entity_once [] (fun _ => some 7) 5).cache, 0⟩ :=
  (C7_resolver_cache_idempotent [] (fun _ => some 7) (fun _ => none) 5 7).1 rfl

/-- C8: on the empty string the Content Filter (a total function, so no
exception can arise) either skips with `[]` or, in the raw branch,
produces the single decorated empty payload. -/
theorem C8_empty_text_safe (s : Settings) :
    apply_filters_to_text "" s = []
    ∨ apply_filters_to_text "" s = [decor s ""] := by
  by_cases hraw : truthy s.filter_raw = true
  · right
    simp [apply_filters_to_text, hraw]
  · left
    have h1 : pyAnyChar "" Char.isDigit = false := rfl
    have h2 : pyAnyChar "" Char.isAlpha = false := rfl
    have h3 : hasAlphaWord "" = false := rfl
    have h4 : hasDigitWord "" = false := rfl
    have h5 : pyIsdigit (pyStrip "") = false := rfl
    simp at hraw
    simp [apply_filters_to_text, hraw, h1, h2, h3, h4, h5]

end Forwarderify

namespace Forwarderify

/-- Truthiness of a present boolean value. -/
lemma truthy_some (b : Bool) : truthy (some b) = b := rfl

/-- C3: with two or more filter flags stored true, the output equals the
output under the single highest-priority true flag (priority raw >
numbers > alpha > remove_alpha > remove_numeric): the first matching flag
short-circuits all later branches. -/
theorem C3_filter_priority (t : String) (s : Settings)
    (h : 2 ≤ numTrueFilterFlags s) :
    apply_filters_to_text t s = apply_filters_to_text t (soloTopFlag s) := by
  by_cases h1 : truthy s.filter_raw = true
  · simp [apply_filters_to_text, soloTopFlag, truthy_some, h1]
    rfl
  · simp at h1
    by_cases h2 : truthy s.filter_numbers = true
    · simp [apply_filters_to_text, soloTopFlag, truthy_some, h1, h2]
      rfl
    · simp at h2
      by_cases h3 : truthy s.filter_alpha = true
      · simp [apply_filters_to_text, soloTopFlag, truthy_some, h1, h2, h3]
        rfl
      · simp at h3
        by_cases h4 : truthy s.filter_remove_alpha = true
        · simp [apply_filters_to_text, soloTopFlag, truthy_some, h1, h2, h3, h4]
          rfl
        · simp at h4
          by_cases h5 : truthy s.filter_remove_numeric = true
          · simp [apply_filters_to_text, soloTopFlag, truthy_some,
              h1, h2, h3, h4, h5]
            rfl
          · simp at h5
            simp [apply_filters_to_text, soloTopFlag, truthy_some,
              active_filters, h1, h2, h3, h4, h5]
            rfl

/-- Witness for C3: numbers and alpha both stored true; the output on
"a1" is that of the higher-priority numbers flag alone. -/
theorem C3_witness :
    2 ≤ numTrueFilterFlags
        { TASK_SETTINGS_DEFAULT with
            filter_numbers := some true, filter_alpha := some true }
    ∧ apply_filters_to_text "a1"
        { TASK_SETTINGS_DEFAULT with
            filter_numbers := some true, filter_alpha := some true }
      = apply_filters_to_text "a1"
        (soloTopFlag
          { TASK_SETTINGS_DEFAULT with
              filter_numbers := some true, filter_alpha := some true }) :=
  ⟨by decide,
    C3_filter_priority "a1"
      { TASK_SETTINGS_DEFAULT with
          filter_numbers := some true, filter_alpha := some true }
      (by decide)⟩

/-- C4: with no filter flag stored truthy, the output is the decorated
whitespace-trimmed text when that trimmed text is entirely digits, else
`[]`; in particular "42" gives `["42"]` and "42abc" gives `[]` under the
stored defaults. -/
theorem C4_legacy_default (text : String) (s : Settings)
    (h : active_filters s = false) :
    apply_filters_to_text text s
      = (if pyIsdigit (pyStrip text) then [decor s (pyStrip text)] else [])
    ∧ apply_filters_to_text "42" TASK_SETTINGS_DEFAULT = ["42"]
    ∧ apply_filters_to_text "42abc" TASK_SETTINGS_DEFAULT = [] := by
  refine ⟨?_, by decide, by decide⟩
  simp only [active_filters, Bool.or_eq_false_iff] at h
  obtain ⟨⟨⟨⟨hr, hn⟩, ha⟩, hra⟩, hrn⟩ := h
  simp [apply_filters_to_text, active_filters, hr, hn, ha, hra, hrn]

/-- Witness for C4 at the stored defaults and the documented inputs. -/
theorem C4_witness :
    active_filters TASK_SETTINGS_DEFAULT = false
    ∧ apply_filters_to_text "42" TASK_SETTINGS_DEFAULT = ["42"] :=
  ⟨by decide, (C4_legacy_default "42" TASK_SETTINGS_DEFAULT (by decide)).2.1⟩

/-- C5: on "abc 123 a1b2 xyz 7", remove-alpha forwards the letter-only
words and remove-numeric the digit-only words, decorated, one output per
word; and whenever the text is not mixed at word granularity, either flag
(when it is the first truthy one) yields `[]`. -/
theorem C5_strip_word_split :
    apply_filters_to_text "abc 123 a1b2 xyz 7"
        { TASK_SETTINGS_DEFAULT with filter_remove_alpha := some true }
      = ["abc", "xyz"]
    ∧ apply_filters_to_text "abc 123 a1b2 xyz 7"
        { TASK_SETTINGS_DEFAULT with filter_remove_numeric := some true }
      = ["123", "7"]
    ∧ (∀ (t : String) (s : Settings),
        truthy s.filter_raw = false → truthy s.filter_numbers = false →
        truthy s.filter_alpha = false → truthy s.filter_remove_alpha = true →
        textMixed t = false → apply_filters_to_text t s = [])
    ∧ (∀ (t : String) (s : Settings),
        truthy s.filter_raw = false → truthy s.filter_numbers = false →
        truthy s.filter_alpha = false → truthy s.filter_remove_alpha = false →
        truthy s.filter_remove_numeric = true → textMixed t = false →
        apply_filters_to_text t s = []) := by
  refine ⟨by decide, by decide, ?_, ?_⟩
  · intro t s hr hn ha hra hmix
    simp only [textMixed] at hmix
    simp [apply_filters_to_text, hr, hn, ha, hra, hmix]
  · intro t s hr hn ha hra hrn hmix
    simp only [textMixed] at hmix
    simp [apply_filters_to_text, hr, hn, ha, hra, hrn, hmix]

/-- Witness for C5: pure-alpha text "abc" is not mixed, so remove-alpha
yields `[]`. -/
theorem C5_witness :
    textMixed "abc" = false
    ∧ apply_filters_to_text "abc"
        { TASK_SETTINGS_DEFAULT with filter_remove_alpha := some true } = [] :=
  ⟨by decide,
    C5_strip_word_split.2.2.1 "abc"
      { TASK_SETTINGS_DEFAULT with filter_remove_alpha := some true }
      (by decide) (by decide) (by decide) (by decide) (by decide)⟩

end Forwarderify

namespace Forwarderify

/-- Overwriting the stored forward-tag flag changes nothing a task's
per-event job computation reads. -/
lemma handler_task_jobs_forward_tag (user_id : Int) (client : Nat)
    (event_out : Bool) (chat_id : Int) (message_text : String) (v : Option Bool)
    (task : Task) :
    handler_task_jobs user_id client event_out chat_id message_text
      { task with settings := { task.settings with forward_tag := v } }
    = handler_task_jobs user_id client event_out chat_id message_text task := rfl

/-- Overwriting the forward-tag flag across a task list leaves the
flattened job list unchanged. -/
lemma flatMap_jobs_forward_tag (user_id : Int) (client : Nat)
    (event_out : Bool) (chat_id : Int) (message_text : String) (v : Option Bool)
    (user_tasks : List Task) :
    (user_tasks.map (fun task =>
        { task with settings := { task.settings with forward_tag := v } })).flatMap
      (handler_task_jobs user_id client event_out chat_id message_text)
    = user_tasks.flatMap
        (handler_task_jobs user_id client event_out chat_id message_text) := by
  induction user_tasks with
  | nil => rfl
  | cons hd tl ih =>
    simp only [List.map_cons, List.flatMap_cons, ih,
      handler_task_jobs_forward_tag]

/-- C9: neither the Content Filter nor the hot message handler's job
computation ever consults the stored forward-tag flag: overwriting it with
any value yields the same filter output and the same enqueued jobs. -/
theorem C9_forward_tag_never_consulted :
    (∀ (t : String) (s : Settings) (v : Option Bool),
      apply_filters_to_text t { s with forward_tag := v }
        = apply_filters_to_text t s)
    ∧ ∀ (user_id : Int) (client : Nat) (e : Event) (user_tasks : List Task)
        (v : Option Bool),
        handler_jobs user_id client e (user_tasks.map (fun task =>
          { task with settings := { task.settings with forward_tag := v } }))
        = handler_jobs user_id client e user_tasks := by
  constructor
  · intro t s v
    rfl
  · intro user_id client e user_tasks v
    unfold handler_jobs
    cases extract_text e with
    | none => rfl
    | some message_text =>
      cases extract_chat_id e with
      | none => rfl
      | some chat_id =>
        cases user_tasks with
        | nil => rfl
        | cons hd tl =>
          simp only [List.map_cons, List.isEmpty_cons]
          exact flatMap_jobs_forward_tag user_id client e.out chat_id
            message_text v (hd :: tl)

/-- C10: the hot message handler skips a matching task on the control
setting only when the stored value is exactly `False`; with the key
absent (or `None`) the task is processed exactly as if control were
`True`. -/
theorem C10_control_skip_only_exact_false (user_id : Int) (client : Nat)
    (event_out : Bool) (chat_id : Int) (message_text : String) (task : Task)
    (h : Settings.control task.settings ≠ some false) :
    handler_task_jobs user_id client event_out chat_id message_text task
    = handler_task_jobs user_id client event_out chat_id message_text
        { task with settings := { task.settings with control := some true } } := by
  unfold handler_task_jobs
  by_cases hc : task.source_ids.contains chat_id = true
  · simp only [hc, if_true]
    rw [if_neg h, if_neg (by simp : ¬((some true : Option Bool) = some false))]
    rfl
  · simp only [hc]
    rfl

/-- Witness for C10: a task whose settings lack the control key entirely
is still processed (its "42" event yields a job). -/
theorem C10_witness :
    handler_task_jobs 1 0 false 100 "42"
      ⟨[100], [200], { control := none }⟩
    = handler_task_jobs 1 0 false 100 "42"
        { (⟨[100], [200], { control := none }⟩ : Task) with
            settings := { ({ control := none } : Settings) with
              control := some true } } :=
  C10_control_skip_only_exact_false 1 0 false 100 "42"
    ⟨[100], [200], { control := none }⟩ (by decide)

end Forwarderify
